import Mathlib

/-
Verification of the querystring parser of flask-combo-jsonapi
(`flask_combo_jsonapi/querystring.py`, class `QueryStringManager`).

The raw querystring is modelled as an ordered association list of
string keys to string values (a Python `dict` preserves insertion
order and has unique keys).  Each accessor of the manager is embedded
as a function returning `Except QsError _`; raising an exception in
Python corresponds to returning `.error`.  String manipulation is
modelled on the character list underlying the Lean `String` so that
every definition evaluates by kernel reduction.
-/

set_option autoImplicit false

namespace FlaskComboJsonapi

/-- Errors raised by the accessors.  `badRequest`, `invalidFilters`,
`invalidSort`, `invalidField` and `invalidInclude` model the exception
classes of `flask_combo_jsonapi.exceptions`; `badRequest` carries the
`source 'parameter'` field.  `pyTypeError` models an *uncaught* Python
`TypeError` escaping the accessor (it is not one of the library's
structured errors). -/
inductive QsError where
  | badRequest (msg : String) (parameter : String)
  | invalidFilters (msg : String)
  | invalidSort (msg : String)
  | invalidField (msg : String)
  | invalidInclude (msg : String)
  | pyTypeError (msg : String)
  deriving DecidableEq, Repr

/-- A value extracted by the bracketed-group extractor: the raw string,
or the list obtained by splitting on `,` when the string contains a
comma (`_get_key_values`, lines 52-55). -/
inductive StrOrList where
  | str (s : String)
  | list (l : List String)
  deriving DecidableEq, Repr

/-- Result of Python `int(..)` applied to a `StrOrList`: `ValueError`
for a string that does not parse as an integer, `TypeError` for a list. -/
inductive PyNumErr where
  | valueError
  | typeError
  deriving DecidableEq, Repr

/-- One sorting directive `{'field': .., 'order': ..}` (`sorting`, line 178). -/
structure SortDirective where
  field : String
  order : String
  deriving DecidableEq, Repr

/-- Modelled from the spec: the application-configuration store read by
the accessors through `current_app.config`.  `none` models an absent
key; `config.get(k, d)` is `(... ).getD d`. -/
structure Config where
  PAGE_SIZE : Option Int := none
  ALLOW_DISABLE_PAGINATION : Option Bool := none
  MAX_PAGE_SIZE : Option Int := none
  MAX_INCLUDE_DEPTH : Option Int := none
  deriving Repr

/-- Modelled from the spec: the schema descriptor used by `sorting` and
`fields` through `flask_combo_jsonapi.schema` (not under `src/`).  It
exposes declared field names (`_declared_fields`), relationship field
names (`get_relationships`), alias-to-storage-name resolution
(`get_model_field`) and the class name (`__name__`). -/
structure Schema where
  name : String
  declaredFields : List String
  relationships : List String
  modelField : String → String

/-- Modelled from the spec: the relationship-path separator `SPLIT_REL`
from `flask_combo_jsonapi.utils` (not under `src/`); the spec's include
paths are dotted (`include=author.comments`), so the separator is the
single character `.`. -/
def SPLIT_REL : Char := '.'

/- ### Python string primitives on the underlying character list -/

/-- Python `key.startswith(name)`. -/
def pyStartsWith (s pre : String) : Bool :=
  pre.toList.isPrefixOf s.toList

/-- Index of the first occurrence of `c`, counting from `i`. -/
def charIndexAux (c : Char) : List Char → Nat → Option Nat
  | [], _ => none
  | x :: xs, i => if x == c then some i else charIndexAux c xs (i + 1)

/-- Python `s.index(c)`: index of the first occurrence of `c` in `s`,
`none` when absent (Python raises `ValueError`). -/
def strIndexOf (s : String) (c : Char) : Option Nat :=
  charIndexAux c s.toList 0

/-- Python slice `s[a:b]` for `0 ≤ a, b` (clamping, empty when `b ≤ a`). -/
def pySlice (s : String) (a b : Nat) : String :=
  String.mk ((s.toList.drop a).take (b - a))

/-- Python `s.replace(c, '')`: remove every occurrence of `c`. -/
def pyRemoveAll (s : String) (c : Char) : String :=
  String.mk (s.toList.filter (fun x => x != c))

/-- Python `c in s` for a single character. -/
def pyContainsChar (s : String) (c : Char) : Bool :=
  s.toList.contains c

/-- Auxiliary splitter on a separator character, accumulating the
current chunk in reverse. -/
def splitOnCharAux (sep : Char) : List Char → List Char → List (List Char)
  | [], acc => [acc.reverse]
  | c :: cs, acc =>
    if c == sep then acc.reverse :: splitOnCharAux sep cs []
    else splitOnCharAux sep cs (c :: acc)

/-- Python `s.split(sep)` for a one-character separator. -/
def pySplitChar (s : String) (sep : Char) : List String :=
  (splitOnCharAux sep s.toList []).map String.mk

/-- Digit list to number, most significant first (all characters are
assumed to be decimal digits). -/
def digitsToNat (l : List Char) : Nat :=
  l.foldl (fun acc c => acc * 10 + (c.toNat - 48)) 0

/-- Python `int(s)` on a string: optional surrounding whitespace, an
optional sign, then a non-empty run of decimal digits; `none` models
`ValueError`. -/
def pyIntOfString (s : String) : Option Int :=
  let t := (((s.toList.dropWhile Char.isWhitespace).reverse.dropWhile
      Char.isWhitespace).reverse)
  match t with
  | '-' :: rest =>
    if !rest.isEmpty && rest.all Char.isDigit then some (-(digitsToNat rest : Int)) else none
  | '+' :: rest =>
    if !rest.isEmpty && rest.all Char.isDigit then some (digitsToNat rest : Int) else none
  | rest =>
    if !rest.isEmpty && rest.all Char.isDigit then some (digitsToNat rest : Int) else none

/-- Python `int(value)` on an extracted value: a list raises
`TypeError`, a non-numeric string raises `ValueError`. -/
def pyIntOfValue : StrOrList → Except PyNumErr Int
  | .str s =>
    match pyIntOfString s with
    | some n => .ok n
    | none => .error .valueError
  | .list _ => .error .typeError

/- ### Python dict primitives on ordered association lists -/

/-- Python `d.get(k)`: first (unique) binding of `k`. -/
def dictGet {α : Type} (d : List (String × α)) (k : String) : Option α :=
  match d with
  | [] => none
  | kv :: rest => if kv.1 = k then some kv.2 else dictGet rest k

/-- Python `d.update({k: v})` / `d[k] = v`: replace in place when the
key is present, append otherwise (insertion order preserved). -/
def dictUpdate {α : Type} (d : List (String × α)) (k : String) (v : α) :
    List (String × α) :=
  if d.any (fun kv => kv.1 == k) then
    d.map (fun kv => if kv.1 = k then (k, v) else kv)
  else d ++ [(k, v)]

/- ### QueryStringManager -/

/-- `QueryStringManager.MANAGED_KEYS` (lines 15-22). -/
def MANAGED_KEYS : List String :=
  ["filter", "page", "fields", "sort", "include", "q"]

/-- Python `key.startswith(tuple)`: true when some name is a prefix. -/
def pyStartsWithAny (s : String) (names : List String) : Bool :=
  names.any (fun n => pyStartsWith s n)

/-- The value stored by `_get_key_values`: split on `,` when the raw
value contains a comma, the raw string otherwise (lines 52-55). -/
def pyValOf (v : String) : StrOrList :=
  if pyContainsChar v ',' then .list (pySplitChar v ',') else .str v

/-- Loop body of `_get_key_values` (lines 43-58): skip keys that do not
start with `name`; for the rest take the substring between the first
`[` and the first `]` as the sub-key; a key with no `[` or no `]`
raises `BadRequest "Parse error"` naming the key. -/
def gkvGo (name : String) :
    List (String × String) → List (String × StrOrList) →
    Except QsError (List (String × StrOrList))
  | [], acc => .ok acc
  | (k, v) :: rest, acc =>
    if pyStartsWith k name then
      match strIndexOf k '[', strIndexOf k ']' with
      | some i, some j => gkvGo name rest (dictUpdate acc (pySlice k (i + 1) j) (pyValOf v))
      | _, _ => .error (.badRequest "Parse error" k)
    else gkvGo name rest acc

/-- `QueryStringManager._get_key_values(name)` (lines 35-60). -/
def get_key_values (name : String) (qs : List (String × String)) :
    Except QsError (List (String × StrOrList)) :=
  gkvGo name qs []

/-- The dict comprehension of `querystring` (lines 72-73), entry by
entry; `whole` is the full querystring that `_get_key_values('filter[')`
reads (the second disjunct of the condition does not look at the
current entry). -/
def qsGo (whole : List (String × String)) :
    List (String × String) → Except QsError (List (String × String))
  | [] => .ok []
  | kv :: rest =>
    if pyStartsWithAny kv.1 MANAGED_KEYS then
      match qsGo whole rest with
      | .ok r => .ok (kv :: r)
      | .error e => .error e
    else
      match get_key_values "filter[" whole with
      | .ok f =>
        match qsGo whole rest with
        | .ok r => .ok (if f.isEmpty then r else kv :: r)
        | .error e => .error e
      | .error e => .error e

/-- `QueryStringManager.querystring` (lines 66-73): keep an entry when
its key starts with one of `MANAGED_KEYS`, or — the key not matching —
when the `filter[` bracketed group of the whole querystring is
non-empty. -/
def querystring (qs : List (String × String)) :
    Except QsError (List (String × String)) :=
  qsGo qs qs

/-- Type-check/coercion loop of `pagination` (lines 107-113): a sub-key
other than `number`/`size` raises `BadRequest` naming `page`; a value
whose `int(..)` raises `ValueError` becomes `BadRequest "Parse error"`
naming `page[<key>]`; a list value raises an uncaught `TypeError`
(only `ValueError` is caught by the source). -/
def pageCoerce : List (String × StrOrList) → Except QsError (List (String × Int))
  | [] => .ok []
  | (k, v) :: rest =>
    if k == "number" || k == "size" then
      match pyIntOfValue v with
      | .ok n =>
        match pageCoerce rest with
        | .ok r => .ok ((k, n) :: r)
        | .error e => .error e
      | .error .valueError => .error (.badRequest "Parse error" ("page[" ++ k ++ "]"))
      | .error .typeError =>
        .error (.pyTypeError "int() argument must be a string or a number, not list")
    else .error (.badRequest (k ++ " is not a valid parameter of pagination") "page")

/-- Tail of `pagination` (lines 115-125): default `size` to
`config.get('PAGE_SIZE', 30)` when absent, then the two policy checks
(`ALLOW_DISABLE_PAGINATION`, `MAX_PAGE_SIZE`). -/
def pagePost (cfg : Config) (result0 : List (String × Int)) :
    Except QsError (List (String × Int)) :=
  let result :=
    if result0.any (fun kv => kv.1 == "size") then result0
    else result0 ++ [("size", cfg.PAGE_SIZE.getD 30)]
  if cfg.ALLOW_DISABLE_PAGINATION.getD true = false ∧ dictGet result "size" = some 0 then
    .error (.badRequest "You are not allowed to disable pagination" "page[size]")
  else
    match cfg.MAX_PAGE_SIZE with
    | some m =>
      if result.any (fun kv => kv.1 == "size") then
        if (dictGet result "size").getD 0 > m then
          .error (.badRequest ("Maximum page size is " ++ toString m) "page[size]")
        else .ok result
      else .ok result
    | none => .ok result

/-- `QueryStringManager.pagination` (lines 92-125): extract the `page`
bracketed group, validate/coerce each entry, then default and check
policies. -/
def pagination (cfg : Config) (qs : List (String × String)) :
    Except QsError (List (String × Int)) :=
  match get_key_values "page" qs with
  | .error e => .error e
  | .ok kvs =>
    match pageCoerce kvs with
    | .error e => .error e
    | .ok result => pagePost cfg result

/-- The per-token loop of `sorting` (lines 169-178): remove every `-`
of the token to recover the field; for a field without `SPLIT_REL`
check that it is declared and not a relationship, then resolve it
through `get_model_field`; the order is `desc` exactly when the token
starts with `-`. -/
def sortGo (schema : Schema) :
    List String → Except QsError (List SortDirective)
  | [] => .ok []
  | tok :: rest =>
    let field := pyRemoveAll tok '-'
    let fieldR : Except QsError String :=
      if !pyContainsChar field SPLIT_REL then
        if !schema.declaredFields.contains field then
          .error (.invalidSort (schema.name ++ " has no attribute " ++ field))
        else if schema.relationships.contains field then
          .error (.invalidSort ("You can't sort on " ++ field ++
            " because it is a relationship field"))
        else .ok (schema.modelField field)
      else .ok field
    match fieldR with
    | .error e => .error e
    | .ok f =>
      let order := if pyStartsWith tok "-" then "desc" else "asc"
      match sortGo schema rest with
      | .ok r => .ok (⟨f, order⟩ :: r)
      | .error e => .error e

/-- The sort directive the loop emits for one token when the schema
checks pass: every `-` is removed to recover the field, a local field
(no `SPLIT_REL`) is resolved through `get_model_field`, and the order
is `desc` exactly when the token starts with `-`. -/
def sortDirOf (schema : Schema) (tok : String) : SortDirective :=
  let field := pyRemoveAll tok '-'
  ⟨if pyContainsChar field SPLIT_REL then field else schema.modelField field,
   if pyStartsWith tok "-" then "desc" else "asc"⟩

/-- `QueryStringManager.sorting` (lines 153-181): an absent or empty
`sort` value yields `[]`; otherwise split on `,` and run the
per-token loop. -/
def sorting (schema : Schema) (qs : List (String × String)) :
    Except QsError (List SortDirective) :=
  match dictGet qs "sort" with
  | some s =>
    if s = "" then .ok []
    else sortGo schema (pySplitChar s ',')
  | none => .ok []

/-- The depth-check loop of `include` (lines 191-195): when
`MAX_INCLUDE_DEPTH` is configured the source iterates the *raw string*
value — character by character, since a Python `for` over a string
yields its characters — and compares each character's
`split(SPLIT_REL)` length against the limit. -/
def includeCheck (cfg : Config) (s : String) : Except QsError Unit :=
  match cfg.MAX_INCLUDE_DEPTH with
  | none => .ok ()
  | some maxD =>
    if s.toList.any
        (fun c => ((pySplitChar (String.singleton c) SPLIT_REL).length : Int) > maxD) then
      .error (.invalidInclude ("You can't use include through more than " ++
        toString maxD ++ " relationships"))
    else .ok ()

/-- `QueryStringManager.include` (lines 183-197): run the depth check
on the raw value, then split on `,`.  An absent key yields `[]` (the
`[]` default is iterated vacuously and is falsy). -/
def include_ (cfg : Config) (qs : List (String × String)) :
    Except QsError (List String) :=
  match dictGet qs "include" with
  | none => .ok []
  | some s =>
    match includeCheck cfg s with
    | .error e => .error e
    | .ok _ => if s = "" then .ok [] else .ok (pySplitChar s ',')

/- ### Concrete fixtures used by the closed theorems below -/

/-- Empty configuration (no key set). -/
def cfgNone : Config := ⟨none, none, none, none⟩

/-- Configuration with `MAX_INCLUDE_DEPTH = 1`. -/
def cfgDepth1 : Config := ⟨none, none, none, some 1⟩

/-- Configuration with `MAX_INCLUDE_DEPTH = 2`. -/
def cfgDepth2 : Config := ⟨none, none, none, some 2⟩

/-- Configuration with `ALLOW_DISABLE_PAGINATION = False`. -/
def cfgNoDisable : Config := ⟨none, some false, none, none⟩

/-- Configuration with `MAX_PAGE_SIZE = 5`. -/
def cfgMax5 : Config := ⟨none, none, some 5, none⟩

/-- A schema declaring a few plain (non-relationship) fields, with the
identity alias resolution. -/
def testSchema : Schema := ⟨"TestSchema", ["ab", "a-b", "name", "created_at"], [], fun f => f⟩

/-- A schema whose declared field `x` is a relationship. -/
def relSchema : Schema := ⟨"RelSchema", ["x"], ["x"], fun f => f⟩

/-- A registry resolving type `user` to a schema declaring `name` and
`email`. -/
def userRegistry : String → Schema :=
  fun t => if t = "user" then ⟨"UserSchema", ["name", "email"], [], fun f => f⟩
           else ⟨"OtherSchema", [], [], fun f => f⟩

/- ### JSON (model of `simplejson.loads`) -/

/-- Modelled from the spec: JSON values as produced by
`simplejson.loads` (the `simplejson` library is not under `src/`; the
spec says the whole `filter` value is "parsed as JSON").  A number's
numeric payload keeps only the integer part of the literal — the
accessors never consult it, only the top-level shape matters. -/
inductive Json where
  | null
  | bool (b : Bool)
  | num (n : Int)
  | str (s : String)
  | arr (xs : List Json)
  | obj (kvs : List (String × Json))

/-- Skip JSON whitespace. -/
def jsSkipWs : List Char → List Char
  | c :: cs =>
    if c == ' ' || c == '\t' || c == '\n' || c == '\r' then jsSkipWs cs else c :: cs
  | [] => []

/-- Parse the body of a JSON string literal after the opening quote;
`acc` holds the decoded characters in reverse.  Handles the one-letter
escapes; `none` on a malformed literal. -/
def jsParseStringAux : List Char → List Char → Option (List Char × List Char)
  | [], _ => none
  | '"' :: cs, acc => some (acc.reverse, cs)
  | '\\' :: e :: cs, acc =>
    if e == '"' then jsParseStringAux cs ('"' :: acc)
    else if e == '\\' then jsParseStringAux cs ('\\' :: acc)
    else if e == '/' then jsParseStringAux cs ('/' :: acc)
    else if e == 'n' then jsParseStringAux cs ('\n' :: acc)
    else if e == 't' then jsParseStringAux cs ('\t' :: acc)
    else if e == 'r' then jsParseStringAux cs ('\r' :: acc)
    else if e == 'b' then jsParseStringAux cs ('\x08' :: acc)
    else if e == 'f' then jsParseStringAux cs ('\x0c' :: acc)
    else none
  | c :: cs, acc => jsParseStringAux cs (c :: acc)

/-- Parse a JSON number: optional `-`, an integer part, an optional
fraction and an optional exponent; the stored value is the signed
integer part (the accessors only inspect the constructor). -/
def jsParseNumber (cs : List Char) : Option (Json × List Char) :=
  let (neg, cs1) := match cs with
    | '-' :: rest => (true, rest)
    | _ => (false, cs)
  let intPart := cs1.takeWhile Char.isDigit
  let cs2 := cs1.dropWhile Char.isDigit
  if intPart.isEmpty then none
  else
    let (okFrac, cs3) := match cs2 with
      | '.' :: rest =>
        let frac := rest.takeWhile Char.isDigit
        (!frac.isEmpty, rest.dropWhile Char.isDigit)
      | _ => (true, cs2)
    if !okFrac then none
    else
      let (okExp, cs4) := match cs3 with
        | e :: rest =>
          if e == 'e' || e == 'E' then
            let rest' := match rest with
              | s :: r2 => if s == '+' || s == '-' then r2 else rest
              | [] => rest
            let digits := rest'.takeWhile Char.isDigit
            (!digits.isEmpty, rest'.dropWhile Char.isDigit)
          else (true, cs3)
        | [] => (true, cs3)
      if !okExp then none
      else
        let n : Int := (digitsToNat intPart : Int)
        some (.num (if neg then -n else n), cs4)

mutual

/-- Fuel-driven recursive-descent parser for one JSON value. -/
def jsParseVal : Nat → List Char → Option (Json × List Char)
  | 0, _ => none
  | fuel + 1, cs =>
    match jsSkipWs cs with
    | [] => none
    | '"' :: rest =>
      match jsParseStringAux rest [] with
      | some (l, r) => some (.str (String.mk l), r)
      | none => none
    | '[' :: rest =>
      match jsSkipWs rest with
      | ']' :: r2 => some (.arr [], r2)
      | _ =>
        match jsParseArrItems fuel rest with
        | some (xs, r2) => some (.arr xs, r2)
        | none => none
    | '\x7b' :: rest =>
      match jsSkipWs rest with
      | '\x7d' :: r2 => some (.obj [], r2)
      | _ =>
        match jsParseObjItems fuel rest with
        | some (kvs, r2) => some (.obj kvs, r2)
        | none => none
    | 't' :: 'r' :: 'u' :: 'e' :: r => some (.bool true, r)
    | 'f' :: 'a' :: 'l' :: 's' :: 'e' :: r => some (.bool false, r)
    | 'n' :: 'u' :: 'l' :: 'l' :: r => some (.null, r)
    | other => jsParseNumber other

/-- Comma-separated array items up to the closing `]`. -/
def jsParseArrItems : Nat → List Char → Option (List Json × List Char)
  | 0, _ => none
  | fuel + 1, cs =>
    match jsParseVal fuel cs with
    | none => none
    | some (v, r) =>
      match jsSkipWs r with
      | ',' :: r2 =>
        match jsParseArrItems fuel r2 with
        | some (vs, r3) => some (v :: vs, r3)
        | none => none
      | ']' :: r2 => some ([v], r2)
      | _ => none

/-- Comma-separated `"key": value` object members up to the closing
brace. -/
def jsParseObjItems : Nat → List Char → Option (List (String × Json) × List Char)
  | 0, _ => none
  | fuel + 1, cs =>
    match jsSkipWs cs with
    | '"' :: rest =>
      match jsParseStringAux rest [] with
      | none => none
      | some (k, r) =>
        match jsSkipWs r with
        | ':' :: r2 =>
          match jsParseVal fuel r2 with
          | none => none
          | some (v, r3) =>
            match jsSkipWs r3 with
            | ',' :: r4 =>
              match jsParseObjItems fuel r4 with
              | some (kvs, r5) => some ((String.mk k, v) :: kvs, r5)
              | none => none
            | '\x7d' :: r4 => some ([(String.mk k, v)], r4)
            | _ => none
        | _ => none
    | _ => none

end

/-- Modelled from the spec: `json.loads` — parse one JSON value and
require the rest of the input to be whitespace; `none` models the
`ValueError` of a syntactically invalid payload. -/
def jsonLoads (s : String) : Option Json :=
  match jsParseVal (2 * s.toList.length + 4) s.toList with
  | some (j, rest) => if (jsSkipWs rest).isEmpty then some j else none
  | none => none

/- ### filters -/

/-- Python `results.extend(x)` for a freshly parsed JSON value `x`
(line 85): a list contributes its elements, a dict its keys, a string
its characters (each a one-character string); a number, boolean or
`None` is not iterable and raises `TypeError` (caught on line 86). -/
def pyExtend (acc : List Json) : Json → Option (List Json)
  | .arr xs => some (acc ++ xs)
  | .obj kvs => some (acc ++ kvs.map (fun kv => Json.str kv.1))
  | .str s => some (acc ++ s.toList.map (fun c => Json.str (String.singleton c)))
  | .num _ => none
  | .bool _ => none
  | .null => none

/-- `QueryStringManager._simple_filters` (lines 62-64): each bracketed
pair becomes `{"name": key, "op": "eq", "val": value}`. -/
def simple_filters (d : List (String × StrOrList)) : List Json :=
  d.map (fun kv =>
    Json.obj [("name", .str kv.1), ("op", .str "eq"),
      ("val", match kv.2 with
              | .str s => .str s
              | .list l => .arr (l.map Json.str))])

/-- `QueryStringManager.filters` (lines 75-90): parse the whole
`filter` value as JSON and extend the result list with it (`ValueError`
and `TypeError` both become `InvalidFilters`), then append the
equality filters of the `filter[` bracketed group when it is
non-empty. -/
def filters (qs : List (String × String)) : Except QsError (List Json) :=
  let part1 : Except QsError (List Json) :=
    match dictGet qs "filter" with
    | none => .ok []
    | some f =>
      match jsonLoads f with
      | none => .error (.invalidFilters "Parse error")
      | some j =>
        match pyExtend [] j with
        | some r => .ok r
        | none => .error (.invalidFilters "Parse error")
  match part1 with
  | .error e => .error e
  | .ok results =>
    match get_key_values "filter[" qs with
    | .error e => .error e
    | .ok kvs => .ok (if kvs.isEmpty then results else results ++ simple_filters kvs)

/- ### fields -/

/-- Scalar-to-singleton normalization of `fields` (lines 141-143). -/
def strOrListToList : StrOrList → List String
  | .str s => [s]
  | .list l => l

/-- Inner validation loop of `fields` (lines 147-149): every requested
field must be among the schema's declared fields. -/
def fieldsCheckOne (schema : Schema) : List String → Except QsError Unit
  | [] => .ok ()
  | obj :: rest =>
    if schema.declaredFields.contains obj then fieldsCheckOne schema rest
    else .error (.invalidField (schema.name ++ " has no attribute " ++ obj))

/-- Outer validation loop of `fields` (lines 145-149): resolve each
type through the registry (`get_schema_from_type`) and check its
fields. -/
def fieldsCheck (registry : String → Schema) :
    List (String × List String) → Except QsError Unit
  | [] => .ok ()
  | (key, value) :: rest =>
    match fieldsCheckOne (registry key) value with
    | .ok _ => fieldsCheck registry rest
    | .error e => .error e

/-- `QueryStringManager.fields` (lines 127-151): extract the `fields`
bracketed group, normalize scalars to singleton lists, validate every
(type, field) pair against the registry, and return the normalized
mapping.  `registry` models `get_schema_from_type` (not under
`src/`). -/
def fields (registry : String → Schema) (qs : List (String × String)) :
    Except QsError (List (String × List String)) :=
  match get_key_values "fields" qs with
  | .error e => .error e
  | .ok kvs =>
    let result := kvs.map (fun kv => (kv.1, strOrListToList kv.2))
    match fieldsCheck registry result with
    | .ok _ => .ok result
    | .error e => .error e

/- ### Helper lemmas -/

instance exceptDecEq {ε α : Type} [DecidableEq ε] [DecidableEq α] :
    DecidableEq (Except ε α) := fun x y =>
  match x, y with
  | .ok a, .ok b =>
    if h : a = b then .isTrue (by rw [h]) else .isFalse (fun he => h (Except.ok.inj he))
  | .error a, .error b =>
    if h : a = b then .isTrue (by rw [h]) else .isFalse (fun he => h (Except.error.inj he))
  | .ok _, .error _ => .isFalse (fun he => Except.noConfusion he)
  | .error _, .ok _ => .isFalse (fun he => Except.noConfusion he)

theorem string_mk_toList (s : String) : String.mk s.toList = s := rfl

theorem splitOnCharAux_no_sep (sep : Char) :
    ∀ (l acc : List Char), l.contains sep = false →
      splitOnCharAux sep l acc = [acc.reverse ++ l]
  | [], acc, _ => by simp [splitOnCharAux]
  | c :: cs, acc, h => by
    simp only [List.contains_cons, Bool.or_eq_false_iff] at h
    have hc : (c == sep) = false :=
      beq_eq_false_iff_ne.mpr (Ne.symm (beq_eq_false_iff_ne.mp h.1))
    simp only [splitOnCharAux, hc, Bool.false_eq_true, if_false,
      splitOnCharAux_no_sep sep cs (c :: acc) h.2]
    simp

/-- Splitting on a character that does not occur yields the one-element
list (Python `s.split(sep)` when `sep not in s`). -/
theorem pySplitChar_no_sep (s : String) (sep : Char)
    (h : pyContainsChar s sep = false) : pySplitChar s sep = [s] := by
  unfold pySplitChar
  rw [splitOnCharAux_no_sep sep s.toList [] h]
  simp [string_mk_toList]

/-- The bracketed-group extractor only looks at the entries whose key
starts with the prefix. -/
theorem gkvGo_filter (name : String) :
    ∀ (l : List (String × String)) (acc : List (String × StrOrList)),
      gkvGo name l acc = gkvGo name (l.filter fun kv => pyStartsWith kv.1 name) acc
  | [], _ => rfl
  | (k, v) :: rest, acc => by
    by_cases h : pyStartsWith k name = true
    · rw [List.filter_cons_of_pos (by simpa using h)]
      cases h1 : strIndexOf k '[' with
      | none => simp [gkvGo, h, h1]
      | some i =>
        cases h2 : strIndexOf k ']' with
        | none => simp [gkvGo, h, h1, h2]
        | some j =>
          simp only [gkvGo, h, if_true, h1, h2]
          exact gkvGo_filter name rest _
    · rw [List.filter_cons_of_neg (by simpa using h)]
      simp only [gkvGo, h, if_false, Bool.not_eq_true] at *
      simp only [gkvGo, h, Bool.false_eq_true, if_false]
      exact gkvGo_filter name rest acc

theorem get_key_values_filter (name : String) (qs : List (String × String)) :
    get_key_values name qs =
      get_key_values name (qs.filter fun kv => pyStartsWith kv.1 name) :=
  gkvGo_filter name qs []

/-- Behaviour of the `querystring` comprehension once the `filter[`
group of the whole querystring is known: with an empty group only the
managed-prefix entries survive; with a non-empty group every entry
survives. -/
theorem qsGo_ok (whole : List (String × String)) (f : List (String × StrOrList))
    (hf : get_key_values "filter[" whole = .ok f) :
    ∀ l : List (String × String),
      qsGo whole l =
        .ok (if f.isEmpty then l.filter (fun kv => pyStartsWithAny kv.1 MANAGED_KEYS) else l)
  | [] => by simp [qsGo]
  | kv :: rest => by
    have hrec := qsGo_ok whole f hf rest
    by_cases h : pyStartsWithAny kv.1 MANAGED_KEYS = true
    · rw [List.filter_cons_of_pos (by simpa using h)]
      simp only [qsGo, h, if_true, hrec]
      by_cases he : f.isEmpty <;> simp [he]
    · rw [List.filter_cons_of_neg (by simpa using h)]
      simp only [qsGo, h, Bool.false_eq_true, if_false, hf, hrec]
      by_cases he : f.isEmpty <;> simp [he]

/-- The per-token sorting loop succeeds and maps `sortDirOf` over the
tokens when every local recovered field is declared and not a
relationship. -/
theorem sortGo_ok (schema : Schema) :
    ∀ toks : List String,
      (∀ tok ∈ toks, pyContainsChar (pyRemoveAll tok '-') SPLIT_REL = false →
        schema.declaredFields.contains (pyRemoveAll tok '-') = true ∧
        schema.relationships.contains (pyRemoveAll tok '-') = false) →
      sortGo schema toks = .ok (toks.map (sortDirOf schema))
  | [], _ => rfl
  | tok :: rest, h => by
    have hrest := sortGo_ok schema rest (fun t ht => h t (List.mem_cons_of_mem _ ht))
    by_cases hc : pyContainsChar (pyRemoveAll tok '-') SPLIT_REL = true
    · simp [sortGo, hc, hrest, sortDirOf]
    · have hb : pyContainsChar (pyRemoveAll tok '-') SPLIT_REL = false := by
        simpa using hc
      obtain ⟨hd, hr⟩ := h tok (List.mem_cons_self _ _) hb
      have hd' : pyRemoveAll tok '-' ∈ schema.declaredFields := by simpa using hd
      have hr' : pyRemoveAll tok '-' ∉ schema.relationships := by simpa using hr
      simp [sortGo, hb, hd', hr', hrest, sortDirOf]

/-- The inner `fields` validation loop succeeds when every requested
field is declared. -/
theorem fieldsCheckOne_ok (schema : Schema) :
    ∀ fs : List String, (∀ f ∈ fs, schema.declaredFields.contains f = true) →
      fieldsCheckOne schema fs = .ok ()
  | [], _ => rfl
  | f :: rest, h => by
    have hf : f ∈ schema.declaredFields := by simpa using h f (List.mem_cons_self _ _)
    simp [fieldsCheckOne, hf,
      fieldsCheckOne_ok schema rest (fun g hg => h g (List.mem_cons_of_mem _ hg))]

/-- The inner `fields` validation loop fails with `InvalidField` naming
the schema and an offending field when one exists. -/
theorem fieldsCheckOne_err (schema : Schema) :
    ∀ fs : List String, (∃ f ∈ fs, schema.declaredFields.contains f = false) →
      ∃ f ∈ fs, schema.declaredFields.contains f = false ∧
        fieldsCheckOne schema fs =
          .error (.invalidField (schema.name ++ " has no attribute " ++ f))
  | [], h => absurd h (by simp)
  | g :: rest, h => by
    by_cases hg : schema.declaredFields.contains g = true
    · have hrest : ∃ f ∈ rest, schema.declaredFields.contains f = false := by
        obtain ⟨f, hfm, hfc⟩ := h
        rcases List.mem_cons.mp hfm with rfl | hfm
        · rw [hg] at hfc; cases hfc
        · exact ⟨f, hfm, hfc⟩
      obtain ⟨f, hfm, hfc, heq⟩ := fieldsCheckOne_err schema rest hrest
      have hg' : g ∈ schema.declaredFields := by simpa using hg
      exact ⟨f, List.mem_cons_of_mem _ hfm, hfc, by simp [fieldsCheckOne, hg', heq]⟩
    · have hgf : schema.declaredFields.contains g = false := by simpa using hg
      have hgf' : g ∉ schema.declaredFields := by simpa using hgf
      exact ⟨g, List.mem_cons_self _ _, hgf, by simp [fieldsCheckOne, hgf']⟩

/-- The outer `fields` validation loop succeeds when every (type,
field) pair is declared on its resolved schema. -/
theorem fieldsCheck_ok (registry : String → Schema) :
    ∀ rows : List (String × List String),
      (∀ p ∈ rows, ∀ f ∈ p.2, (registry p.1).declaredFields.contains f = true) →
      fieldsCheck registry rows = .ok ()
  | [], _ => rfl
  | (t, fs) :: rest, h => by
    have hhead := fieldsCheckOne_ok (registry t) fs
      (fun f hf => h (t, fs) (List.mem_cons_self _ _) f hf)
    simp [fieldsCheck, hhead,
      fieldsCheck_ok registry rest (fun p hp => h p (List.mem_cons_of_mem _ hp))]

/-- The outer `fields` validation loop fails with `InvalidField` naming
a resolved schema and an offending requested field when one exists. -/
theorem fieldsCheck_err (registry : String → Schema) :
    ∀ rows : List (String × List String),
      (∃ p ∈ rows, ∃ f ∈ p.2, (registry p.1).declaredFields.contains f = false) →
      ∃ t fs f, (t, fs) ∈ rows ∧ f ∈ fs ∧
        (registry t).declaredFields.contains f = false ∧
        fieldsCheck registry rows =
          .error (.invalidField ((registry t).name ++ " has no attribute " ++ f))
  | [], h => absurd h (by simp)
  | (t0, fs0) :: rest, h => by
    by_cases hh : ∃ f ∈ fs0, (registry t0).declaredFields.contains f = false
    · obtain ⟨f, hfm, hfc, heq⟩ := fieldsCheckOne_err (registry t0) fs0 hh
      exact ⟨t0, fs0, f, List.mem_cons_self _ _, hfm, hfc, by simp [fieldsCheck, heq]⟩
    · have hrest : ∃ p ∈ rest, ∃ f ∈ p.2, (registry p.1).declaredFields.contains f = false := by
        obtain ⟨p, hpm, f, hfm, hfc⟩ := h
        rcases List.mem_cons.mp hpm with rfl | hpm
        · exact absurd ⟨f, hfm, hfc⟩ hh
        · exact ⟨p, hpm, f, hfm, hfc⟩
      obtain ⟨t, fs, f, htm, hfm, hfc, heq⟩ := fieldsCheck_err registry rest hrest
      have hok : fieldsCheckOne (registry t0) fs0 = .ok () :=
        fieldsCheckOne_ok (registry t0) fs0 (fun g hg => by
          by_contra hgc
          exact hh ⟨g, hg, by simpa using hgc⟩)
      exact ⟨t, fs, f, List.mem_cons_of_mem _ htm, hfm, hfc, by simp [fieldsCheck, hok, heq]⟩

/-- Appending a fresh binding makes it visible to `dictGet` when no
earlier binding uses the key. -/
theorem dictGet_append_of_no_key {α : Type} (k : String) (v : α) :
    ∀ d : List (String × α), d.any (fun kv => kv.1 == k) = false →
      dictGet (d ++ [(k, v)]) k = some v
  | [], _ => by simp [dictGet]
  | kv :: rest, h => by
    simp only [List.any_cons, Bool.or_eq_false_iff] at h
    have hne : kv.1 ≠ k := beq_eq_false_iff_ne.mp h.1
    simp [dictGet, hne, dictGet_append_of_no_key k v rest h.2]

/-- The pagination tail returns its input unchanged when `size` is
present and both policies hold. -/
theorem pagePost_ok (cfg : Config) (res : List (String × Int)) (S : Int)
    (hany : res.any (fun kv => kv.1 == "size") = true)
    (hget : dictGet res "size" = some S)
    (h1 : cfg.ALLOW_DISABLE_PAGINATION.getD true = true ∨ S ≠ 0)
    (h2 : ∀ m, cfg.MAX_PAGE_SIZE = some m → S ≤ m) :
    pagePost cfg res = .ok res := by
  unfold pagePost
  simp only [hany, if_true]
  rw [if_neg]
  · cases hm : cfg.MAX_PAGE_SIZE with
    | none => rfl
    | some m =>
      simp only [hany, if_true, hget, Option.getD_some]
      rw [if_neg (not_lt.mpr (h2 m hm))]
  · rintro ⟨ha, hb⟩
    rcases h1 with h1 | h1
    · rw [h1] at ha; cases ha
    · rw [hget] at hb; exact h1 (Option.some.inj hb)

/-- The pagination tail on a result without `size` equals the tail on
the result extended with the configured default size. -/
theorem pagePost_default (cfg : Config) (res : List (String × Int))
    (hany : res.any (fun kv => kv.1 == "size") = false) :
    pagePost cfg res = pagePost cfg (res ++ [("size", cfg.PAGE_SIZE.getD 30)]) := by
  unfold pagePost
  simp [hany, List.any_append]

/- ### Claims -/

/-- Claim C1: with `MAX_INCLUDE_DEPTH = 1` the include accessor rejects
`include=author.comments` with `InvalidInclude`, and with the limit at 2
or unset it returns `["author.comments"]` — this part holds.  The
general depth rule of the claim (count the separator-delimited segments
of each *split* path) does not hold on the code: the loop iterates the
raw string character by character, so the path `a.b.c`, whose split
segment count is 3, is accepted under `MAX_INCLUDE_DEPTH = 2`. -/
theorem claim_C1_include_depth_behavior :
    include_ cfgDepth1 [("include", "author.comments")] =
      .error (.invalidInclude "You can't use include through more than 1 relationships") ∧
    include_ cfgDepth2 [("include", "author.comments")] = .ok ["author.comments"] ∧
    include_ cfgNone [("include", "author.comments")] = .ok ["author.comments"] ∧
    (pySplitChar "a.b.c" SPLIT_REL).length = 3 ∧
    include_ cfgDepth2 [("include", "a.b.c")] = .ok ["a.b.c"] :=
  ⟨rfl, rfl, rfl, rfl, rfl⟩

/-- Claim C2 counterexample: the key `foo` starts with none of the
managed names and is not a `filter[...]` parameter, yet the
managed-querystring operation keeps it, because the mere presence of
`filter[name]` makes the comprehension's second disjunct true for
every entry. -/
theorem claim_C2_counterexample :
    pyStartsWithAny "foo" MANAGED_KEYS = false ∧
    pyStartsWith "foo" "filter[" = false ∧
    querystring [("filter[name]", "x"), ("foo", "bar")] =
      .ok [("filter[name]", "x"), ("foo", "bar")] :=
  ⟨rfl, rfl, rfl⟩

/-- Claim C2 (amended): when the `filter[` bracketed group of the raw
querystring is empty, the managed-querystring operation returns exactly
the entries whose key starts with one of `MANAGED_KEYS`; when that
group is non-empty, it returns every entry. -/
theorem claim_C2_managed_querystring (qs : List (String × String))
    (f : List (String × StrOrList)) (hf : get_key_values "filter[" qs = .ok f) :
    querystring qs =
      .ok (if f.isEmpty then qs.filter (fun kv => pyStartsWithAny kv.1 MANAGED_KEYS) else qs) :=
  qsGo_ok qs f hf qs

/-- Witness for `claim_C2_managed_querystring` at a concrete
querystring with a non-empty `filter[` group. -/
theorem claim_C2_managed_querystring_witness :
    get_key_values "filter[" [("filter[name]", "x"), ("foo", "bar")] =
      .ok [("name", StrOrList.str "x")] ∧
    querystring [("filter[name]", "x"), ("foo", "bar")] =
      .ok (if ([("name", StrOrList.str "x")] : List (String × StrOrList)).isEmpty
           then List.filter (fun kv => pyStartsWithAny kv.1 MANAGED_KEYS)
                  [("filter[name]", "x"), ("foo", "bar")]
           else [("filter[name]", "x"), ("foo", "bar")]) :=
  ⟨rfl, claim_C2_managed_querystring [("filter[name]", "x"), ("foo", "bar")]
    [("name", StrOrList.str "x")] rfl⟩

/-- Claim C3 counterexample: a `filter` value holding a JSON object or
a JSON string is *not* rejected: `list.extend` accepts any iterable, so
the object contributes its keys and the string its characters. -/
theorem claim_C3_counterexample :
    filters [("filter", "\x7b\"a\": 1\x7d")] = .ok [Json.str "a"] ∧
    (∀ e, filters [("filter", "\x7b\"a\": 1\x7d")] ≠ .error e) ∧
    filters [("filter", "\"ab\"")] = .ok [Json.str "a", Json.str "b"] := by
  refine ⟨rfl, ?_, rfl⟩
  intro e h
  rw [show filters [("filter", "\x7b\"a\": 1\x7d")] = .ok [Json.str "a"] from rfl] at h
  exact Except.noConfusion h

/-- Claim C3 (amended): the filters accessor fails with
`InvalidFilters` when the `filter` value is syntactically invalid JSON
or parses to a non-iterable JSON value (number, boolean or null); a
JSON object or string payload is accepted, contributing its keys,
respectively its characters, to the result. -/
theorem claim_C3_filters_validation (qs : List (String × String)) (v : String)
    (hv : dictGet qs "filter" = some v) :
    (jsonLoads v = none → filters qs = .error (.invalidFilters "Parse error")) ∧
    (∀ n, jsonLoads v = some (.num n) → filters qs = .error (.invalidFilters "Parse error")) ∧
    (∀ b, jsonLoads v = some (.bool b) → filters qs = .error (.invalidFilters "Parse error")) ∧
    (jsonLoads v = some .null → filters qs = .error (.invalidFilters "Parse error")) ∧
    (∀ kvs fkvs, jsonLoads v = some (.obj kvs) → get_key_values "filter[" qs = .ok fkvs →
      filters qs = .ok ((kvs.map (fun kv => Json.str kv.1)) ++
        (if fkvs.isEmpty then [] else simple_filters fkvs))) ∧
    (∀ s fkvs, jsonLoads v = some (.str s) → get_key_values "filter[" qs = .ok fkvs →
      filters qs = .ok ((s.toList.map (fun c => Json.str (String.singleton c))) ++
        (if fkvs.isEmpty then [] else simple_filters fkvs))) := by
  refine ⟨?_, ?_, ?_, ?_, ?_, ?_⟩
  · intro h; simp [filters, hv, h]
  · intro n h; simp [filters, hv, h, pyExtend]
  · intro b h; simp [filters, hv, h, pyExtend]
  · intro h; simp [filters, hv, h, pyExtend]
  · intro kvs fkvs h hf
    simp only [filters, hv, h, pyExtend, List.nil_append, hf]
    by_cases he : fkvs.isEmpty <;> simp [he]
  · intro s fkvs h hf
    simp only [filters, hv, h, pyExtend, List.nil_append, hf]
    by_cases he : fkvs.isEmpty <;> simp [he]

/-- Witness for `claim_C3_filters_validation`: `filter=5` parses as a
JSON number and is rejected with `InvalidFilters`. -/
theorem claim_C3_filters_validation_witness :
    dictGet [("filter", "5")] "filter" = some "5" ∧
    jsonLoads "5" = some (Json.num 5) ∧
    filters [("filter", "5")] = .error (.invalidFilters "Parse error") :=
  ⟨rfl, rfl, (claim_C3_filters_validation [("filter", "5")] "5" rfl).2.1 5 rfl⟩

/-- Claim C4 counterexample: the token `a-b` has an interior `-`, which
the claim says is part of the field name; the code removes *every* `-`
(`str.replace`), recovering `ab` instead of `a-b`. -/
theorem claim_C4_counterexample :
    sorting testSchema [("sort", "a-b")] = .ok [⟨"ab", "asc"⟩] ∧
    sorting testSchema [("sort", "a-b")] ≠ .ok [⟨"a-b", "asc"⟩] := by
  exact ⟨by decide, by decide⟩

/-- Claim C4 (amended): the sorting accessor splits the `sort` value on
`,` and, for each token, removes every `-` character (not only a
leading one) to recover the field name, emitting order `desc` exactly
when the token starts with `-` and `asc` otherwise, with directives in
the same left-to-right order as the input tokens. -/
theorem claim_C4_sorting_tokens (schema : Schema) (s : String) (hs : s ≠ "")
    (h : ∀ tok ∈ pySplitChar s ',', pyContainsChar (pyRemoveAll tok '-') SPLIT_REL = false →
      schema.declaredFields.contains (pyRemoveAll tok '-') = true ∧
      schema.relationships.contains (pyRemoveAll tok '-') = false) :
    sorting schema [("sort", s)] = .ok ((pySplitChar s ',').map (sortDirOf schema)) := by
  simp [sorting, dictGet, hs, sortGo_ok schema _ h]

/-- Witness for `claim_C4_sorting_tokens`: the spec's own example
`sort=-created_at,name`. -/
theorem claim_C4_sorting_tokens_witness :
    pySplitChar "-created_at,name" ',' = ["-created_at", "name"] ∧
    sorting testSchema [("sort", "-created_at,name")] =
      .ok (["-created_at", "name"].map (sortDirOf testSchema)) ∧
    ["-created_at", "name"].map (sortDirOf testSchema) =
      [⟨"created_at", "desc"⟩, ⟨"name", "asc"⟩] := by
  refine ⟨rfl, ?_, by decide⟩
  exact claim_C4_sorting_tokens testSchema "-created_at,name" (by decide) (by decide)

/-- The pagination tail fails with the disable-pagination error when
`ALLOW_DISABLE_PAGINATION` is configured `False` and the present size
is 0. -/
theorem pagePost_disable_err (cfg : Config) (res : List (String × Int))
    (hA : cfg.ALLOW_DISABLE_PAGINATION = some false)
    (hany : res.any (fun kv => kv.1 == "size") = true)
    (hget : dictGet res "size" = some 0) :
    pagePost cfg res =
      .error (.badRequest "You are not allowed to disable pagination" "page[size]") := by
  unfold pagePost
  simp only [hany, if_true]
  rw [if_pos ⟨by rw [hA]; rfl, hget⟩]

/-- The pagination tail fails naming the configured maximum when the
present size exceeds `MAX_PAGE_SIZE` (and the disable check passes). -/
theorem pagePost_max_err (cfg : Config) (res : List (String × Int)) (S m : Int)
    (hM : cfg.MAX_PAGE_SIZE = some m)
    (hany : res.any (fun kv => kv.1 == "size") = true)
    (hget : dictGet res "size" = some S)
    (hgt : S > m)
    (hp : cfg.ALLOW_DISABLE_PAGINATION.getD true = true ∨ S ≠ 0) :
    pagePost cfg res =
      .error (.badRequest ("Maximum page size is " ++ toString m) "page[size]") := by
  unfold pagePost
  simp only [hany, if_true]
  rw [if_neg (by
    rintro ⟨ha, hb⟩
    rcases hp with h | h
    · rw [h] at ha; cases ha
    · rw [hget] at hb; exact h (Option.some.inj hb))]
  rw [hM]
  simp only [hany, if_true, hget, Option.getD_some]
  rw [if_pos hgt]

/-- Claim C5 counterexample: `page[size]=1,2` is extracted as a list,
and Python `int(list)` raises `TypeError`, which the source's
`except ValueError` does not catch: the accessor does not produce the
claimed `BadRequest`, the `TypeError` escapes uncaught. -/
theorem claim_C5_counterexample :
    pagination cfgNone [("page[size]", "1,2")] =
      .error (.pyTypeError "int() argument must be a string or a number, not list") ∧
    ∀ msg param, pagination cfgNone [("page[size]", "1,2")] ≠
      .error (.badRequest msg param) := by
  refine ⟨rfl, ?_⟩
  intro msg param h
  rw [show pagination cfgNone [("page[size]", "1,2")] =
      .error (.pyTypeError "int() argument must be a string or a number, not list")
    from rfl] at h
  exact QsError.noConfusion (Except.error.inj h)

/-- Claim C5 (amended): for a `page[...]` sub-key in {number, size},
a string value that cannot be coerced to an integer fails with
`BadRequest` naming the specific `page[<key>]` parameter; a
comma-containing value, which the bracketed-group extractor turns into
a list, instead raises an uncaught `TypeError` (only `ValueError` is
caught by the source). -/
theorem claim_C5_page_coercion (cfg : Config) (qs : List (String × String)) (k v : String)
    (hk : k = "number" ∨ k = "size")
    (hfilter : qs.filter (fun kv => pyStartsWith kv.1 "page") = [("page[" ++ k ++ "]", v)]) :
    (pyContainsChar v ',' = true →
      pagination cfg qs =
        .error (.pyTypeError "int() argument must be a string or a number, not list")) ∧
    (pyContainsChar v ',' = false → pyIntOfString v = none →
      pagination cfg qs = .error (.badRequest "Parse error" ("page[" ++ k ++ "]"))) := by
  rcases hk with rfl | rfl
  · have hkv : get_key_values "page" qs = .ok [("number", pyValOf v)] := by
      rw [get_key_values_filter, hfilter]; rfl
    constructor
    · intro h
      have hco : pageCoerce [("number", pyValOf v)] =
          .error (.pyTypeError "int() argument must be a string or a number, not list") := by
        simp [pyValOf, h, pageCoerce, pyIntOfValue]
      simp [pagination, hkv, hco]
    · intro h hn
      have hco : pageCoerce [("number", pyValOf v)] =
          .error (.badRequest "Parse error" ("page[" ++ "number" ++ "]")) := by
        simp [pyValOf, h, pageCoerce, pyIntOfValue, hn]
      simp [pagination, hkv, hco]
  · have hkv : get_key_values "page" qs = .ok [("size", pyValOf v)] := by
      rw [get_key_values_filter, hfilter]; rfl
    constructor
    · intro h
      have hco : pageCoerce [("size", pyValOf v)] =
          .error (.pyTypeError "int() argument must be a string or a number, not list") := by
        simp [pyValOf, h, pageCoerce, pyIntOfValue]
      simp [pagination, hkv, hco]
    · intro h hn
      have hco : pageCoerce [("size", pyValOf v)] =
          .error (.badRequest "Parse error" ("page[" ++ "size" ++ "]")) := by
        simp [pyValOf, h, pageCoerce, pyIntOfValue, hn]
      simp [pagination, hkv, hco]

/-- Witness for `claim_C5_page_coercion`: `page[size]=abc` fails with
`BadRequest` naming `page[size]`. -/
theorem claim_C5_page_coercion_witness :
    List.filter (fun kv => pyStartsWith kv.1 "page") [("page[size]", "abc")] =
      [("page[size]", "abc")] ∧
    pyContainsChar "abc" ',' = false ∧ pyIntOfString "abc" = none ∧
    pagination cfgNone [("page[size]", "abc")] =
      .error (.badRequest "Parse error" "page[size]") := by
  refine ⟨rfl, rfl, rfl, ?_⟩
  exact (claim_C5_page_coercion cfgNone [("page[size]", "abc")] "size" "abc"
    (Or.inr rfl) rfl).2 rfl rfl

/-- Claim C6: for a raw querystring whose `page`-prefixed entries are
exactly well-formed `page[number]=N` and `page[size]=S` (in either
order) with integers N, S ≥ 0 and no configured policy forbidding them,
the pagination accessor returns exactly `{number: N, size: S}`; when
`page[size]` is absent it returns the configured default size
(`PAGE_SIZE`, default 30) with no error. -/
theorem claim_C6_pagination_wellformed (cfg : Config) (qs : List (String × String))
    (sN sS : String) (N S : Int)
    (hN : pyIntOfString sN = some N) (hS : pyIntOfString sS = some S)
    (hcN : pyContainsChar sN ',' = false) (hcS : pyContainsChar sS ',' = false)
    (hN0 : 0 ≤ N) (hS0 : 0 ≤ S) :
    (qs.filter (fun kv => pyStartsWith kv.1 "page") =
        [("page[number]", sN), ("page[size]", sS)] →
      (cfg.ALLOW_DISABLE_PAGINATION.getD true = true ∨ S ≠ 0) →
      (∀ m, cfg.MAX_PAGE_SIZE = some m → S ≤ m) →
      pagination cfg qs = .ok [("number", N), ("size", S)]) ∧
    (qs.filter (fun kv => pyStartsWith kv.1 "page") =
        [("page[size]", sS), ("page[number]", sN)] →
      (cfg.ALLOW_DISABLE_PAGINATION.getD true = true ∨ S ≠ 0) →
      (∀ m, cfg.MAX_PAGE_SIZE = some m → S ≤ m) →
      pagination cfg qs = .ok [("size", S), ("number", N)]) ∧
    (qs.filter (fun kv => pyStartsWith kv.1 "page") = [("page[number]", sN)] →
      (cfg.ALLOW_DISABLE_PAGINATION.getD true = true ∨ cfg.PAGE_SIZE.getD 30 ≠ 0) →
      (∀ m, cfg.MAX_PAGE_SIZE = some m → cfg.PAGE_SIZE.getD 30 ≤ m) →
      pagination cfg qs = .ok [("number", N), ("size", cfg.PAGE_SIZE.getD 30)]) := by
  have hvN : pyValOf sN = .str sN := by simp [pyValOf, hcN]
  have hvS : pyValOf sS = .str sS := by simp [pyValOf, hcS]
  refine ⟨?_, ?_, ?_⟩
  · intro hfilter hp1 hp2
    have hkv : get_key_values "page" qs = .ok [("number", pyValOf sN), ("size", pyValOf sS)] := by
      rw [get_key_values_filter, hfilter]; rfl
    rw [hvN, hvS] at hkv
    have hco : pageCoerce [("number", .str sN), ("size", .str sS)] =
        .ok [("number", N), ("size", S)] := by
      simp [pageCoerce, pyIntOfValue, hN, hS]
    simp only [pagination, hkv, hco]
    exact pagePost_ok cfg _ S rfl rfl hp1 hp2
  · intro hfilter hp1 hp2
    have hkv : get_key_values "page" qs = .ok [("size", pyValOf sS), ("number", pyValOf sN)] := by
      rw [get_key_values_filter, hfilter]; rfl
    rw [hvN, hvS] at hkv
    have hco : pageCoerce [("size", .str sS), ("number", .str sN)] =
        .ok [("size", S), ("number", N)] := by
      simp [pageCoerce, pyIntOfValue, hN, hS]
    simp only [pagination, hkv, hco]
    exact pagePost_ok cfg _ S rfl rfl hp1 hp2
  · intro hfilter hp1 hp2
    have hkv : get_key_values "page" qs = .ok [("number", pyValOf sN)] := by
      rw [get_key_values_filter, hfilter]; rfl
    rw [hvN] at hkv
    have hco : pageCoerce [("number", .str sN)] = .ok [("number", N)] := by
      simp [pageCoerce, pyIntOfValue, hN]
    simp only [pagination, hkv, hco]
    rw [pagePost_default cfg [("number", N)] (by rfl)]
    exact pagePost_ok cfg _ (cfg.PAGE_SIZE.getD 30) rfl rfl hp1 hp2

/-- Witness for `claim_C6_pagination_wellformed` at
`page[number]=25&page[size]=10` and at `page[number]=25` alone under
the empty configuration. -/
theorem claim_C6_pagination_wellformed_witness :
    pyIntOfString "25" = some 25 ∧ pyIntOfString "10" = some 10 ∧
    pagination cfgNone [("page[number]", "25"), ("page[size]", "10")] =
      .ok [("number", 25), ("size", 10)] ∧
    pagination cfgNone [("page[number]", "25")] = .ok [("number", 25), ("size", 30)] := by
  have h := claim_C6_pagination_wellformed cfgNone
    [("page[number]", "25"), ("page[size]", "10")] "25" "10" 25 10
    rfl rfl rfl rfl (by decide) (by decide)
  have h2 := claim_C6_pagination_wellformed cfgNone [("page[number]", "25")] "25" "10" 25 10
    rfl rfl rfl rfl (by decide) (by decide)
  exact ⟨rfl, rfl,
    h.1 rfl (Or.inl rfl) (fun m hm => Option.noConfusion hm),
    h2.2.2 rfl (Or.inl rfl) (fun m hm => Option.noConfusion hm)⟩

/-- Claim C7: after defaulting, the pagination accessor fails with
`BadRequest` when `ALLOW_DISABLE_PAGINATION` is configured `False` and
the resolved size is exactly 0, and fails with `BadRequest` naming the
configured maximum when `MAX_PAGE_SIZE` is configured and the resolved
size exceeds it. -/
theorem claim_C7_pagination_policy (cfg : Config) (qs : List (String × String))
    (sS : String) (S m : Int)
    (hcS : pyContainsChar sS ',' = false)
    (hfilter : qs.filter (fun kv => pyStartsWith kv.1 "page") = [("page[size]", sS)]) :
    (cfg.ALLOW_DISABLE_PAGINATION = some false → pyIntOfString sS = some 0 →
      pagination cfg qs =
        .error (.badRequest "You are not allowed to disable pagination" "page[size]")) ∧
    (cfg.MAX_PAGE_SIZE = some m → pyIntOfString sS = some S → S > m →
      (cfg.ALLOW_DISABLE_PAGINATION.getD true = true ∨ S ≠ 0) →
      pagination cfg qs =
        .error (.badRequest ("Maximum page size is " ++ toString m) "page[size]")) := by
  have hvS : pyValOf sS = .str sS := by simp [pyValOf, hcS]
  have hkv : get_key_values "page" qs = .ok [("size", pyValOf sS)] := by
    rw [get_key_values_filter, hfilter]; rfl
  rw [hvS] at hkv
  constructor
  · intro hA h0
    have hco : pageCoerce [("size", .str sS)] = .ok [("size", 0)] := by
      simp [pageCoerce, pyIntOfValue, h0]
    simp only [pagination, hkv, hco]
    exact pagePost_disable_err cfg _ hA rfl rfl
  · intro hM hS hgt hp
    have hco : pageCoerce [("size", .str sS)] = .ok [("size", S)] := by
      simp [pageCoerce, pyIntOfValue, hS]
    simp only [pagination, hkv, hco]
    exact pagePost_max_err cfg _ S m hM rfl rfl hgt hp

/-- Witness for `claim_C7_pagination_policy`: `page[size]=0` with
disable-pagination forbidden, and `page[size]=9` with maximum 5. -/
theorem claim_C7_pagination_policy_witness :
    pagination cfgNoDisable [("page[size]", "0")] =
      .error (.badRequest "You are not allowed to disable pagination" "page[size]") ∧
    pagination cfgMax5 [("page[size]", "9")] =
      .error (.badRequest "Maximum page size is 5" "page[size]") := by
  constructor
  · exact (claim_C7_pagination_policy cfgNoDisable [("page[size]", "0")] "0" 0 5
      rfl rfl).1 rfl rfl
  · exact (claim_C7_pagination_policy cfgMax5 [("page[size]", "9")] "9" 9 5
      rfl rfl).2 rfl rfl (by decide) (Or.inl rfl)

/-- Claim C8: for a sort token whose recovered field has no
relationship separator, the sorting accessor fails with `InvalidSort`
when the field is not declared, fails with `InvalidSort` when it is a
relationship, and otherwise emits the storage name obtained through
alias resolution; a token containing the separator is emitted with no
existence check; an absent `sort` key yields `[]`, not an error. -/
theorem claim_C8_sorting_checks (schema : Schema) (qs : List (String × String))
    (tok : String) (htok : tok ≠ "") (hc : pyContainsChar tok ',' = false) :
    (dictGet qs "sort" = none → sorting schema qs = .ok []) ∧
    (pyContainsChar (pyRemoveAll tok '-') SPLIT_REL = false →
      schema.declaredFields.contains (pyRemoveAll tok '-') = false →
      sorting schema [("sort", tok)] =
        .error (.invalidSort (schema.name ++ " has no attribute " ++ pyRemoveAll tok '-'))) ∧
    (pyContainsChar (pyRemoveAll tok '-') SPLIT_REL = false →
      schema.declaredFields.contains (pyRemoveAll tok '-') = true →
      schema.relationships.contains (pyRemoveAll tok '-') = true →
      sorting schema [("sort", tok)] =
        .error (.invalidSort ("You can't sort on " ++ pyRemoveAll tok '-' ++
          " because it is a relationship field"))) ∧
    (pyContainsChar (pyRemoveAll tok '-') SPLIT_REL = false →
      schema.declaredFields.contains (pyRemoveAll tok '-') = true →
      schema.relationships.contains (pyRemoveAll tok '-') = false →
      sorting schema [("sort", tok)] = .ok [⟨schema.modelField (pyRemoveAll tok '-'),
        if pyStartsWith tok "-" then "desc" else "asc"⟩]) ∧
    (pyContainsChar (pyRemoveAll tok '-') SPLIT_REL = true →
      sorting schema [("sort", tok)] = .ok [⟨pyRemoveAll tok '-',
        if pyStartsWith tok "-" then "desc" else "asc"⟩]) := by
  have hsplit : pySplitChar tok ',' = [tok] := pySplitChar_no_sep tok ',' hc
  have hbase : sorting schema [("sort", tok)] = sortGo schema [tok] := by
    simp [sorting, dictGet, htok, hsplit]
  refine ⟨?_, ?_, ?_, ?_, ?_⟩
  · intro h; simp [sorting, h]
  · intro h1 h2
    have h2' : pyRemoveAll tok '-' ∉ schema.declaredFields := by simpa using h2
    rw [hbase]; simp [sortGo, h1, h2']
  · intro h1 h2 h3
    have h2' : pyRemoveAll tok '-' ∈ schema.declaredFields := by simpa using h2
    have h3' : pyRemoveAll tok '-' ∈ schema.relationships := by simpa using h3
    rw [hbase]; simp [sortGo, h1, h2', h3']
  · intro h1 h2 h3
    have h2' : pyRemoveAll tok '-' ∈ schema.declaredFields := by simpa using h2
    have h3' : pyRemoveAll tok '-' ∉ schema.relationships := by simpa using h3
    rw [hbase]; simp [sortGo, h1, h2', h3']
  · intro h1
    rw [hbase]; simp [sortGo, h1]

/-- Witness for `claim_C8_sorting_checks`: the five branches at
concrete schemas and tokens. -/
theorem claim_C8_sorting_checks_witness :
    sorting testSchema ([] : List (String × String)) = .ok [] ∧
    sorting testSchema [("sort", "zzz")] =
      .error (.invalidSort "TestSchema has no attribute zzz") ∧
    sorting relSchema [("sort", "x")] =
      .error (.invalidSort "You can't sort on x because it is a relationship field") ∧
    sorting testSchema [("sort", "name")] = .ok [⟨"name", "asc"⟩] ∧
    sorting testSchema [("sort", "rel.x")] = .ok [⟨"rel.x", "asc"⟩] := by
  refine ⟨?_, ?_, ?_, ?_, ?_⟩
  · exact (claim_C8_sorting_checks testSchema [] "x" (by decide) rfl).1 rfl
  · exact (claim_C8_sorting_checks testSchema [] "zzz" (by decide) rfl).2.1 rfl rfl
  · exact (claim_C8_sorting_checks relSchema [] "x" (by decide) rfl).2.2.1 rfl rfl rfl
  · exact (claim_C8_sorting_checks testSchema [] "name" (by decide) rfl).2.2.2.1 rfl rfl rfl
  · exact (claim_C8_sorting_checks testSchema [] "rel.x" (by decide) rfl).2.2.2.2 rfl

/-- Claim C9: the fields accessor resolves each requested type through
the external registry and fails with `InvalidField` naming the schema
and an offending field whenever a requested field is not declared;
when all requested fields are declared it returns the map from type
name to field-name list, a scalar value normalized to a singleton
list. -/
theorem claim_C9_fields_validation (registry : String → Schema)
    (qs : List (String × String)) (kvs : List (String × StrOrList))
    (hkv : get_key_values "fields" qs = .ok kvs) :
    ((∀ p ∈ kvs.map (fun kv => (kv.1, strOrListToList kv.2)), ∀ f ∈ p.2,
        (registry p.1).declaredFields.contains f = true) →
      fields registry qs = .ok (kvs.map (fun kv => (kv.1, strOrListToList kv.2)))) ∧
    ((∃ p ∈ kvs.map (fun kv => (kv.1, strOrListToList kv.2)), ∃ f ∈ p.2,
        (registry p.1).declaredFields.contains f = false) →
      ∃ t fs f, (t, fs) ∈ kvs.map (fun kv => (kv.1, strOrListToList kv.2)) ∧ f ∈ fs ∧
        (registry t).declaredFields.contains f = false ∧
        fields registry qs =
          .error (.invalidField ((registry t).name ++ " has no attribute " ++ f))) := by
  constructor
  · intro h
    simp [fields, hkv, fieldsCheck_ok registry _ h]
  · intro h
    obtain ⟨t, fs, f, htm, hfm, hfc, heq⟩ := fieldsCheck_err registry _ h
    exact ⟨t, fs, f, htm, hfm, hfc, by simp [fields, hkv, heq]⟩

/-- Witness for `claim_C9_fields_validation`: the spec's own example
`fields[user]=name,email` over a `user` schema declaring both. -/
theorem claim_C9_fields_validation_witness :
    get_key_values "fields" [("fields[user]", "name,email")] =
      .ok [("user", StrOrList.list ["name", "email"])] ∧
    fields userRegistry [("fields[user]", "name,email")] =
      .ok [("user", ["name", "email"])] := by
  refine ⟨rfl, ?_⟩
  exact (claim_C9_fields_validation userRegistry [("fields[user]", "name,email")]
    [("user", StrOrList.list ["name", "email"])] rfl).1 (by decide)

/-- Claim C10 counterexample: the claim's second example is wrong: the
string `pagination` does not start with `page` (its fourth character is
`i`), so the key `pagination[size]=9` is *not* consumed by the `page`
bracketed group — the pagination accessor ignores it and falls back to
the default size. -/
theorem claim_C10_counterexample :
    pyStartsWith "pagination[size]" "page" = false ∧
    get_key_values "page" [("pagination[size]", "9")] = .ok [] ∧
    pagination cfgNone [("pagination[size]", "9")] = .ok [("size", 30)] :=
  ⟨rfl, rfl, rfl⟩

/-- Claim C10 (amended): the bracketed-group extractor matches raw keys
by textual prefix, not by the exact form `P[`: any single-entry
querystring whose key starts with the prefix — such as `pages[number]`
under prefix `page`, though not `pagination[size]`, which does not
start with `page` — contributes its bracketed sub-key and value, and
the pagination accessor consumes such keys as if they were `page[...]`
parameters. -/
theorem claim_C10_prefix_match (name k v : String) (i j : Nat) :
    (pyStartsWith k name = true → strIndexOf k '[' = some i → strIndexOf k ']' = some j →
      get_key_values name [(k, v)] = .ok [(pySlice k (i + 1) j, pyValOf v)]) ∧
    pyStartsWith "pages[number]" "page" = true ∧
    get_key_values "page" [("pages[number]", "5")] = .ok [("number", .str "5")] ∧
    pagination cfgNone [("pages[number]", "5")] = .ok [("number", 5), ("size", 30)] := by
  refine ⟨?_, rfl, rfl, rfl⟩
  intro h h1 h2
  simp [get_key_values, gkvGo, h, h1, h2, dictUpdate]

/-- Witness for `claim_C10_prefix_match`: the key `pages[number]`
matched under prefix `page` yields sub-key `number`. -/
theorem claim_C10_prefix_match_witness :
    pyStartsWith "pages[number]" "page" = true ∧
    strIndexOf "pages[number]" '[' = some 5 ∧
    strIndexOf "pages[number]" ']' = some 12 ∧
    get_key_values "page" [("pages[number]", "5")] =
      .ok [(pySlice "pages[number]" 6 12, pyValOf "5")] :=
  ⟨rfl, rfl, rfl,
    (claim_C10_prefix_match "page" "pages[number]" "5" 5 12).1 rfl rfl rfl⟩

end FlaskComboJsonapi
